import Mathlib

/-!
Shallow embedding of the seat inventory and order settlement engine of the
ticket repository: the storage-layer operations of src/lib/db.ts (Prisma
implementation) and of the SQL implementation exporting the same API, plus the
admin actions of src/app/admin/actions.ts that drive show creation and price
updates.  Rows are modelled as Lean structures, the database as lists of rows,
timestamps as natural numbers (milliseconds), and each operation as a pure
state transformer taking the current time explicitly.
-/

set_option linter.unusedVariables false

/-- Seat status enumeration (Prisma enum SeatStatus / SQL TEXT column with
values available, held, sold). -/
inductive SeatStatus where
  | available
  | held
  | sold
deriving DecidableEq, Repr

/-- A seat row: src/lib/db.ts Prisma model Seat and the seats table of the SQL
implementation (show_id, seat_code, status, held_by, hold_until, buyer_id).
The SQL schema defaults status to available and leaves the other mutable
fields NULL. -/
structure Seat where
  showId : Nat
  seatCode : String
  status : SeatStatus
  heldBy : Option String
  holdUntil : Option Nat
  buyerId : Option String
deriving DecidableEq, Repr

/-- A show row (id, title, starts_at, rows, cols, price). -/
structure ShowRow where
  id : Nat
  title : String
  startsAt : Nat
  rows : Nat
  cols : Nat
  price : Nat
deriving DecidableEq, Repr

/-- An order row. The seat list is stored as a comma-joined string, exactly as
both implementations persist it (params.seats.join in createOrder). -/
structure OrderRow where
  id : Nat
  userId : String
  showId : Nat
  seats : String
  amount : Nat
  receiptType : String
  receiptRef : String
  status : String
  paidAt : Option Nat
  adminId : Option String
deriving DecidableEq, Repr

/-- A user session row (user_sessions table / Prisma model UserSession). -/
structure UserSession where
  userId : String
  state : Option String
  showId : Option Nat
  seats : Option String
  total : Option Nat
deriving DecidableEq, Repr

/-- The whole database state: the four row families plus the auto-increment
counters for orders and shows. -/
structure Db where
  shows : List ShowRow
  seats : List Seat
  orders : List OrderRow
  sessions : List UserSession
  nextOrderId : Nat
  nextShowId : Nat
deriving DecidableEq, Repr

/-- The result values of toggleSeat: the four string literals of its return
type in both implementations. -/
inductive ToggleResult where
  | sold
  | held
  | available
  | heldByOther
deriving DecidableEq, Repr

/-- The OrderRecord shape returned by getOrder/approveOrder/rejectOrder in both
implementations: the stored comma-joined seat string split back into a list. -/
structure OrderRecord where
  id : Nat
  user_id : String
  show_id : Nat
  seats : List String
  amount : Nat
  status : String
deriving DecidableEq, Repr

/-- Splitting a character list at commas, the JS String.split(",") semantics:
an empty input yields one empty fragment, a trailing comma a final empty
fragment. -/
def splitCommas : List Char → List Char → List String
  | [], acc => [String.mk acc.reverse]
  | c :: cs, acc =>
    if c = ',' then String.mk acc.reverse :: splitCommas cs []
    else splitCommas cs (c :: acc)

/-- Splitting a stored seat string: order.seats.split(",").filter(Boolean) —
split on commas, dropping empty fragments. -/
def splitSeats (s : String) : List String :=
  (splitCommas s.data []).filter (fun x => x ≠ "")

/-- Joining a seat list for storage: params.seats.join(","). -/
def joinSeats : List String → String
  | [] => ""
  | [x] => x
  | x :: xs => x ++ "," ++ joinSeats xs

/-- The OrderRecord view of a stored order row, as built at every return site
of approveOrder/rejectOrder/getOrder. -/
def OrderRow.toRecord (o : OrderRow) : OrderRecord :=
  { id := o.id
    user_id := o.userId
    show_id := o.showId
    seats := splitSeats o.seats
    amount := o.amount
    status := o.status }

namespace PrismaDb

/-- The Prisma filter holdUntil lt now of src/lib/db.ts: a lt filter on a
nullable column matches only non-null values strictly below the bound. -/
def holdUntilLt (o : Option Nat) (now : Nat) : Bool :=
  match o with
  | none => false
  | some t => t < now

/-- releaseExpiredHolds (src/lib/db.ts lines 114-127): updateMany over the
show's seats with status held and holdUntil lt now, setting them available and
clearing heldBy/holdUntil. -/
def releaseExpiredHolds (db : Db) (showId : Nat) (now : Nat) : Db :=
  { db with
    seats := db.seats.map fun s =>
      if s.showId == showId && s.status == SeatStatus.held && holdUntilLt s.holdUntil now then
        { s with status := SeatStatus.available, heldBy := none, holdUntil := none }
      else s }

/-- freezeHeldSeats (src/lib/db.ts lines 219-230): updateMany over the show's
seats with heldBy = userId and status held, setting holdUntil to null. -/
def freezeHeldSeats (db : Db) (showId : Nat) (userId : String) : Db :=
  { db with
    seats := db.seats.map fun s =>
      if s.showId == showId && s.heldBy == some userId && s.status == SeatStatus.held then
        { s with holdUntil := none }
      else s }

/-- The first updateMany inside toggleSeat (src/lib/db.ts lines 152-164):
revert this seat's hold when it is held and its holdUntil is lt now. -/
def revertExpiredSeat (db : Db) (showId : Nat) (seatCode : String) (now : Nat) : Db :=
  { db with
    seats := db.seats.map fun s =>
      if s.showId == showId && s.seatCode == seatCode && s.status == SeatStatus.held
          && holdUntilLt s.holdUntil now then
        { s with status := SeatStatus.available, heldBy := none, holdUntil := none }
      else s }

/-- toggleSeat (src/lib/db.ts lines 145-204): inside one transaction, first
revert this seat's expired hold, re-read the seat, then branch on its status.
The held-by-other test mirrors the JS truthiness check
seat.heldBy && seat.heldBy !== userId (an empty-string holder is falsy). -/
def toggleSeat (db : Db) (showId : Nat) (seatCode : String) (userId : String)
    (holdMinutes : Nat) (now : Nat) : Except String (ToggleResult × Db) :=
  let db1 : Db := revertExpiredSeat db showId seatCode now
  match db1.seats.find? (fun s => s.showId == showId && s.seatCode == seatCode) with
  | none => Except.error "Seat not found"
  | some seat =>
    if seat.status == SeatStatus.sold then
      Except.ok (ToggleResult.sold, db1)
    else if seat.status == SeatStatus.held
        && seat.heldBy.any (fun h => !(h == "") && !(h == userId)) then
      Except.ok (ToggleResult.heldByOther, db1)
    else if seat.status == SeatStatus.held && seat.heldBy == some userId then
      Except.ok (ToggleResult.available,
        { db1 with
          seats := db1.seats.map fun s =>
            if s.showId == showId && s.seatCode == seatCode then
              { s with status := SeatStatus.available, heldBy := none, holdUntil := none }
            else s })
    else
      Except.ok (ToggleResult.held,
        { db1 with
          seats := db1.seats.map fun s =>
            if s.showId == showId && s.seatCode == seatCode then
              { s with status := SeatStatus.held, heldBy := some userId,
                       holdUntil := some (now + holdMinutes * 60 * 1000) }
            else s })

/-- createOrder (src/lib/db.ts lines 270-290): insert a new order row with the
comma-joined seat list; status defaults to pending, paidAt/adminId to null.
Returns the new id together with the new state. -/
def createOrder (db : Db) (userId : String) (showId : Nat) (seats : List String)
    (amount : Nat) (receiptType : String) (receiptRef : String) : Nat × Db :=
  let oid := db.nextOrderId
  (oid,
    { db with
      orders := db.orders ++
        [{ id := oid, userId := userId, showId := showId, seats := joinSeats seats,
           amount := amount, receiptType := receiptType, receiptRef := receiptRef,
           status := "pending", paidAt := none, adminId := none }]
      nextOrderId := oid + 1 })

/-- getOrder (src/lib/db.ts lines 292-305). -/
def getOrder (db : Db) (orderId : Nat) : Option OrderRecord :=
  (db.orders.find? (fun o => o.id == orderId)).map OrderRow.toRecord

/-- approveOrder (src/lib/db.ts lines 307-360): inside one transaction, read
the order; absent orders yield null, non-pending orders are returned unchanged;
a pending order's seats are marked sold with buyerId = the order's user and
heldBy/holdUntil cleared, the order becomes approved with paidAt and adminId
stamped, and the buyer's sessions are deleted. -/
def approveOrder (db : Db) (orderId : Nat) (adminId : String) (now : Nat) :
    Option OrderRecord × Db :=
  match db.orders.find? (fun o => o.id == orderId) with
  | none => (none, db)
  | some order =>
    if order.status ≠ "pending" then
      (some order.toRecord, db)
    else
      let seats := splitSeats order.seats
      let db1 : Db :=
        if seats.length > 0 then
          { db with
            seats := db.seats.map fun s =>
              if s.showId == order.showId && seats.contains s.seatCode then
                { s with status := SeatStatus.sold, buyerId := some order.userId,
                         heldBy := none, holdUntil := none }
              else s }
        else db
      let db2 : Db :=
        { db1 with
          orders := db1.orders.map fun o =>
            if o.id == orderId then
              { o with status := "approved", paidAt := some now, adminId := some adminId }
            else o }
      let db3 : Db :=
        { db2 with sessions := db2.sessions.filter fun u => ¬ (u.userId = order.userId) }
      (some { id := order.id, user_id := order.userId, show_id := order.showId,
              seats := seats, amount := order.amount, status := "approved" }, db3)

/-- rejectOrder (src/lib/db.ts lines 362-413): like approveOrder but a pending
order's seats are set available with heldBy/holdUntil cleared (buyerId is not
touched), and the order becomes rejected with adminId stamped. -/
def rejectOrder (db : Db) (orderId : Nat) (adminId : String) (now : Nat) :
    Option OrderRecord × Db :=
  match db.orders.find? (fun o => o.id == orderId) with
  | none => (none, db)
  | some order =>
    if order.status ≠ "pending" then
      (some order.toRecord, db)
    else
      let seats := splitSeats order.seats
      let db1 : Db :=
        if seats.length > 0 then
          { db with
            seats := db.seats.map fun s =>
              if s.showId == order.showId && seats.contains s.seatCode then
                { s with status := SeatStatus.available, heldBy := none, holdUntil := none }
              else s }
        else db
      let db2 : Db :=
        { db1 with
          orders := db1.orders.map fun o =>
            if o.id == orderId then
              { o with status := "rejected", adminId := some adminId }
            else o }
      let db3 : Db :=
        { db2 with sessions := db2.sessions.filter fun u => ¬ (u.userId = order.userId) }
      (some { id := order.id, user_id := order.userId, show_id := order.showId,
              seats := seats, amount := order.amount, status := "rejected" }, db3)

/-- The alphabet string sliced in seedSeats. -/
def alphabet : List Char :=
  "ABCDEFGHIJKLMNOPQRSTUVWXYZ".data

/-- One seat code, the template literal of the seedSeats loops: the row letter
followed by the decimal column number. -/
def seatCodeFor (letter : Char) (col : Nat) : String :=
  String.mk [letter] ++ Nat.repr col

/-- The batch of seat codes built by the nested loops of seedSeats: one code
per letter of the sliced alphabet (slice(0, rows) keeps at most 26 letters)
and per column 1..cols. -/
def seedCodes (rows cols : Nat) : List String :=
  (alphabet.take rows).flatMap fun letter =>
    (List.range cols).map fun k => seatCodeFor letter (k + 1)

/-- A freshly seeded seat row: only show id and seat code are supplied, the
remaining columns take the schema defaults (available, all null). -/
def mkSeat (showId : Nat) (code : String) : Seat :=
  { showId := showId, seatCode := code, status := SeatStatus.available,
    heldBy := none, holdUntil := none, buyerId := none }

/-- One row of the bulk insert with skipDuplicates / ON CONFLICT DO NOTHING:
the row is inserted only when no seat with the same (showId, seatCode) key is
present. -/
def insertSeatIfNew (seats : List Seat) (showId : Nat) (code : String) : List Seat :=
  if seats.any (fun s => s.showId == showId && s.seatCode == code) then seats
  else seats ++ [mkSeat showId code]

/-- seedSeats (src/lib/db.ts lines 71-85 and the SQL implementation lines
111-128): bulk insert of the generated codes, skipping duplicates. -/
def seedSeats (db : Db) (showId rows cols : Nat) : Db :=
  { db with
    seats := (seedCodes rows cols).foldl (fun acc c => insertSeatIfNew acc showId c) db.seats }

/-- createShowAction (src/app/admin/actions.ts lines 50-85), storage part:
create one show row with a fresh id and bulk-seed its seats. -/
def createShow (db : Db) (title : String) (startsAt : Nat) (rows cols price : Nat) : Db :=
  let sid := db.nextShowId
  let db1 : Db :=
    { db with
      shows := db.shows ++
        [{ id := sid, title := title, startsAt := startsAt, rows := rows,
           cols := cols, price := price }]
      nextShowId := sid + 1 }
  seedSeats db1 sid rows cols

/-- updateShowSettingsAction (src/app/admin/actions.ts lines 87-101), storage
part: prisma.show.update where id = showId, data price — throws when the show
is absent, otherwise rewrites only the price field. -/
def updatePrice (db : Db) (showId price : Nat) : Except String Db :=
  if db.shows.any (fun sh => sh.id == showId) then
    Except.ok
      { db with
        shows := db.shows.map fun sh =>
          if sh.id == showId then { sh with price := price } else sh }
  else Except.error "Show not found"

end PrismaDb

namespace SqlDb

/-- The SQL predicate of the expired-hold filters: hold_until IS NOT NULL AND
hold_until < CURRENT_TIMESTAMP. -/
def holdExpired (o : Option Nat) (now : Nat) : Bool :=
  o.isSome && o.getD 0 < now

/-- releaseExpiredHolds of the SQL implementation (lines 140-149): UPDATE the
show's seats with status held and a non-null lapsed hold_until to available,
clearing held_by/hold_until. -/
def releaseExpiredHolds (db : Db) (showId : Nat) (now : Nat) : Db :=
  { db with
    seats := db.seats.map fun s =>
      if s.showId == showId && s.status == SeatStatus.held && holdExpired s.holdUntil now then
        { s with status := SeatStatus.available, heldBy := none, holdUntil := none }
      else s }

/-- freezeHeldSeats of the SQL implementation (lines 225-233): UPDATE the
show's seats with held_by = userId and status held, setting hold_until NULL. -/
def freezeHeldSeats (db : Db) (showId : Nat) (userId : String) : Db :=
  { db with
    seats := db.seats.map fun s =>
      if s.showId == showId && s.heldBy == some userId && s.status == SeatStatus.held then
        { s with holdUntil := none }
      else s }

/-- The first UPDATE inside the SQL toggleSeat (lines 167-175): revert this
seat's hold when it is held with a non-null lapsed hold_until. -/
def revertExpiredSeat (db : Db) (showId : Nat) (seatCode : String) (now : Nat) : Db :=
  { db with
    seats := db.seats.map fun s =>
      if s.showId == showId && s.seatCode == seatCode && s.status == SeatStatus.held
          && holdExpired s.holdUntil now then
        { s with status := SeatStatus.available, heldBy := none, holdUntil := none }
      else s }

/-- toggleSeat of the SQL implementation (lines 160-211): inside one
transaction, revert this seat's expired hold, SELECT the seat FOR UPDATE, then
branch on its status exactly as the Prisma version does. The fresh expiry is
CURRENT_TIMESTAMP plus an interval of holdMinutes minutes. -/
def toggleSeat (db : Db) (showId : Nat) (seatCode : String) (userId : String)
    (holdMinutes : Nat) (now : Nat) : Except String (ToggleResult × Db) :=
  let db1 : Db := revertExpiredSeat db showId seatCode now
  match db1.seats.find? (fun s => s.showId == showId && s.seatCode == seatCode) with
  | none => Except.error "Seat not found"
  | some seat =>
    if seat.status == SeatStatus.sold then
      Except.ok (ToggleResult.sold, db1)
    else if seat.status == SeatStatus.held
        && seat.heldBy.any (fun h => !(h == "") && !(h == userId)) then
      Except.ok (ToggleResult.heldByOther, db1)
    else if seat.status == SeatStatus.held && seat.heldBy == some userId then
      Except.ok (ToggleResult.available,
        { db1 with
          seats := db1.seats.map fun s =>
            if s.showId == showId && s.seatCode == seatCode then
              { s with status := SeatStatus.available, heldBy := none, holdUntil := none }
            else s })
    else
      Except.ok (ToggleResult.held,
        { db1 with
          seats := db1.seats.map fun s =>
            if s.showId == showId && s.seatCode == seatCode then
              { s with status := SeatStatus.held, heldBy := some userId,
                       holdUntil := some (now + holdMinutes * 60000) }
            else s })

/-- approveOrder of the SQL implementation (lines 310-360): SELECT the order
FOR UPDATE; absent orders yield null, non-pending orders are returned
unchanged; a pending order's seats are set sold with buyer_id = the order's
user and held_by/hold_until cleared, the order becomes approved with paid_at
and admin_id stamped, and the buyer's sessions are deleted. -/
def approveOrder (db : Db) (orderId : Nat) (adminId : String) (now : Nat) :
    Option OrderRecord × Db :=
  match db.orders.find? (fun o => o.id == orderId) with
  | none => (none, db)
  | some order =>
    if order.status ≠ "pending" then
      (some order.toRecord, db)
    else
      let seats := splitSeats order.seats
      let db1 : Db :=
        if seats.length > 0 then
          { db with
            seats := db.seats.map fun s =>
              if s.showId == order.showId && seats.contains s.seatCode then
                { s with status := SeatStatus.sold, buyerId := some order.userId,
                         heldBy := none, holdUntil := none }
              else s }
        else db
      let db2 : Db :=
        { db1 with
          orders := db1.orders.map fun o =>
            if o.id == orderId then
              { o with status := "approved", paidAt := some now, adminId := some adminId }
            else o }
      let db3 : Db :=
        { db2 with sessions := db2.sessions.filter fun u => ¬ (u.userId = order.userId) }
      (some { id := order.id, user_id := order.userId, show_id := order.showId,
              seats := seats, amount := order.amount, status := "approved" }, db3)

/-- rejectOrder of the SQL implementation (lines 362-412): like approveOrder
but a pending order's seats are set available with held_by/hold_until cleared
(buyer_id is not touched), and the order becomes rejected with admin_id
stamped. -/
def rejectOrder (db : Db) (orderId : Nat) (adminId : String) (now : Nat) :
    Option OrderRecord × Db :=
  match db.orders.find? (fun o => o.id == orderId) with
  | none => (none, db)
  | some order =>
    if order.status ≠ "pending" then
      (some order.toRecord, db)
    else
      let seats := splitSeats order.seats
      let db1 : Db :=
        if seats.length > 0 then
          { db with
            seats := db.seats.map fun s =>
              if s.showId == order.showId && seats.contains s.seatCode then
                { s with status := SeatStatus.available, heldBy := none, holdUntil := none }
              else s }
        else db
      let db2 : Db :=
        { db1 with
          orders := db1.orders.map fun o =>
            if o.id == orderId then
              { o with status := "rejected", adminId := some adminId }
            else o }
      let db3 : Db :=
        { db2 with sessions := db2.sessions.filter fun u => ¬ (u.userId = order.userId) }
      (some { id := order.id, user_id := order.userId, show_id := order.showId,
              seats := seats, amount := order.amount, status := "rejected" }, db3)

end SqlDb

/-! Spec-side notions: predicates phrased after the specification's wording,
used to state the claims and compared against the code-side definitions. -/

/-- Spec wording of the seat-field invariant: a seat is in exactly one of the
three combinations — available with no holder and no buyer, held with a holder
and no buyer, or sold with a buyer and no holder. -/
def SeatConsistent (s : Seat) : Prop :=
  (s.status = SeatStatus.available ∧ s.heldBy = none ∧ s.buyerId = none) ∨
  (s.status = SeatStatus.held ∧ s.heldBy ≠ none ∧ s.buyerId = none) ∨
  (s.status = SeatStatus.sold ∧ s.buyerId ≠ none ∧ s.heldBy = none)

instance : DecidablePred SeatConsistent := fun s => by
  unfold SeatConsistent
  infer_instance

/-- Spec wording of the expiry-reclamation condition: a seat of the show whose
status is held and whose expiry is non-null and strictly earlier than now. -/
def seatExpiredHeld (showId now : Nat) (s : Seat) : Prop :=
  s.showId = showId ∧ s.status = SeatStatus.held ∧
    s.holdUntil ≠ none ∧ s.holdUntil.getD 0 < now

instance (showId now : Nat) : DecidablePred (seatExpiredHeld showId now) := fun s => by
  unfold seatExpiredHeld
  infer_instance

/-- Spec wording of the freeze condition: a seat of the show whose status is
held and whose holder is the given user. -/
def seatHeldByUser (showId : Nat) (userId : String) (s : Seat) : Prop :=
  s.showId = showId ∧ s.status = SeatStatus.held ∧ s.heldBy = some userId

instance (showId : Nat) (userId : String) : DecidablePred (seatHeldByUser showId userId) :=
  fun s => by
    unfold seatHeldByUser
    infer_instance

/-- Matching a seat row by its unique (show id, seat code) key. -/
def seatKeyIs (showId : Nat) (seatCode : String) (s : Seat) : Prop :=
  s.showId = showId ∧ s.seatCode = seatCode

instance (showId : Nat) (seatCode : String) : DecidablePred (seatKeyIs showId seatCode) :=
  fun s => by
    unfold seatKeyIs
    infer_instance

/-- Looking a seat up by its unique key, as findUnique / SELECT by key do. -/
def findSeat (db : Db) (showId : Nat) (seatCode : String) : Option Seat :=
  db.seats.find? (fun s => s.showId == showId && s.seatCode == seatCode)

/-! Concrete states used by the counterexample and witness theorems. -/

/-- The empty database. -/
def db0 : Db :=
  { shows := [], seats := [], orders := [], sessions := [],
    nextOrderId := 1, nextShowId := 1 }

/-- Unwrapping one toggleSeat step for concrete runs: the post-state on
success, the unchanged state on error. -/
def togglePost (db : Db) (showId : Nat) (seatCode userId : String)
    (holdMinutes now : Nat) : Db :=
  match PrismaDb.toggleSeat db showId seatCode userId holdMinutes now with
  | Except.ok (_, db') => db'
  | Except.error _ => db

/-- Step 1 of the C1 run: create a 1-by-1 show, seeding seat A1. -/
def c1Seeded : Db := PrismaDb.createShow db0 "demo" 0 1 1 100

/-- Step 2: user u1 toggles A1 at time 0 and acquires the hold. -/
def c1Held : Db := togglePost c1Seeded 1 "A1" "u1" 10 0

/-- Step 3: u1 confirms, the selection is frozen. -/
def c1Frozen : Db := PrismaDb.freezeHeldSeats c1Held 1 "u1"

/-- Step 4: u1 submits a receipt — order 1 (pending, seats A1). -/
def c1Ordered : Db := (PrismaDb.createOrder c1Frozen "u1" 1 ["A1"] 100 "text" "r1").2

/-- Step 5: u1 re-toggles A1, releasing the frozen hold (the toggle engine
releases a seat held by the requesting user). -/
def c1Released : Db := togglePost c1Ordered 1 "A1" "u1" 10 1

/-- Step 6: u2 toggles the now-available A1 and acquires the hold. -/
def c1Held2 : Db := togglePost c1Released 1 "A1" "u2" 10 2

/-- Step 7: u2 confirms, the selection is frozen. -/
def c1Frozen2 : Db := PrismaDb.freezeHeldSeats c1Held2 1 "u2"

/-- Step 8: u2 submits a receipt — order 2 (pending, seats A1). -/
def c1Ordered2 : Db := (PrismaDb.createOrder c1Frozen2 "u2" 1 ["A1"] 100 "text" "r2").2

/-- Step 9: the operator approves u1's stale pending order 1 — A1 becomes
sold with buyer u1. -/
def c1Approved : Db := (PrismaDb.approveOrder c1Ordered2 1 "admin" 5).2

/-- Step 10: the operator rejects u2's pending order 2 — A1 is reset to
available but its buyer_id is not cleared. -/
def c1Final : Db := (PrismaDb.rejectOrder c1Approved 2 "admin" 9).2

/-- The C3 counterexample state: seat A1 already sold to u1, and a pending
order by u2 whose seat list contains A1. -/
def c3Db : Db :=
  { shows := [{ id := 1, title := "demo", startsAt := 0, rows := 1, cols := 1, price := 100 }],
    seats := [{ showId := 1, seatCode := "A1", status := SeatStatus.sold,
                heldBy := none, holdUntil := none, buyerId := some "u1" }],
    orders := [{ id := 1, userId := "u2", showId := 1, seats := "A1", amount := 100,
                 receiptType := "text", receiptRef := "r", status := "pending",
                 paidAt := none, adminId := none }],
    sessions := [], nextOrderId := 2, nextShowId := 2 }

/-- Unwrapping one toggleSeat step for concrete runs: the returned result
value on success. -/
def toggleRes (db : Db) (showId : Nat) (seatCode userId : String)
    (holdMinutes now : Nat) : Option ToggleResult :=
  match PrismaDb.toggleSeat db showId seatCode userId holdMinutes now with
  | Except.ok (r, _) => some r
  | Except.error _ => none

/-- The single seat of the freshly seeded 1-by-1 demo show. -/
def w2Seat : Seat :=
  { showId := 1, seatCode := "A1", status := SeatStatus.available,
    heldBy := none, holdUntil := none, buyerId := none }

/-- The demo state after u1 acquires A1 at time 0 with a 10-minute hold. -/
def w2Post : Db :=
  { shows := [{ id := 1, title := "demo", startsAt := 0, rows := 1, cols := 1, price := 100 }],
    seats := [{ showId := 1, seatCode := "A1", status := SeatStatus.held,
                heldBy := some "u1", holdUntil := some 600000, buyerId := none }],
    orders := [], sessions := [], nextOrderId := 1, nextShowId := 2 }

/-- An already-approved order row, used to exercise the non-pending branch of
approveOrder/rejectOrder. -/
def c4Order : OrderRow :=
  { id := 1, userId := "u1", showId := 1, seats := "A1", amount := 100,
    receiptType := "text", receiptRef := "r", status := "approved",
    paidAt := some 5, adminId := some "admin" }

/-- A state whose only order is already approved. -/
def c4Db : Db :=
  { shows := [{ id := 1, title := "demo", startsAt := 0, rows := 1, cols := 1, price := 100 }],
    seats := [{ showId := 1, seatCode := "A1", status := SeatStatus.sold,
                heldBy := none, holdUntil := none, buyerId := some "u1" }],
    orders := [c4Order], sessions := [], nextOrderId := 2, nextShowId := 2 }

/-- The state of c4Db after the operator updates show 1's price to 999. -/
def c8Post : Db :=
  { c4Db with
    shows := [{ id := 1, title := "demo", startsAt := 0, rows := 1, cols := 1, price := 999 }] }

/-- The numeric value of a decimal digit character. -/
def digitVal (c : Char) : Nat := c.toNat - 48

/-- Decoding a list of decimal digit characters back to the number it
denotes, most significant digit first. -/
def decDigits : List Char → Nat
  | [] => 0
  | c :: cs => digitVal c * 10 ^ cs.length + decDigits cs

/-! Theorems. -/

/-- find? commutes with mapping a function that does not change which elements
match the predicate: the first match of the mapped list is the image of the
first match. -/
lemma find?_map_stable (p : Seat → Bool) (f : Seat → Seat)
    (hp : ∀ s, p (f s) = p s) :
    ∀ (l : List Seat) (a : Seat), l.find? p = some a → (l.map f).find? p = some (f a) := by
  intro l
  induction l with
  | nil => intro a h; simp at h
  | cons x xs ih =>
    intro a h
    by_cases hx : p x = true
    · rw [List.find?_cons_of_pos _ hx] at h
      cases h
      rw [List.map_cons, List.find?_cons_of_pos _ (by rw [hp]; exact hx)]
    · rw [List.find?_cons_of_neg _ (by simp [hx])] at h
      rw [List.map_cons, List.find?_cons_of_neg _ (by simp [hp, hx])]
      exact ih a h

/-- Mapping a conditional update is unchanged when the Bool condition is
replaced by an equivalent decidable proposition. -/
lemma map_if_congr {α : Type} {f : α → α} (l : List α) (c : α → Bool) (P : α → Prop)
    [DecidablePred P] (hiff : ∀ s, c s = true ↔ P s) :
    l.map (fun s => if c s then f s else s) = l.map (fun s => if P s then f s else s) :=
  List.map_congr_left fun s _ => by
    by_cases h : P s
    · rw [if_pos ((hiff s).mpr h), if_pos h]
    · rw [if_neg (fun hb => h ((hiff s).mp hb)), if_neg h]

/-- The code-side unique-key test coincides with the spec-side one. -/
lemma seatKey_cond_iff (showId : Nat) (seatCode : String) (s : Seat) :
    (s.showId == showId && s.seatCode == seatCode) = true ↔ seatKeyIs showId seatCode s := by
  simp [seatKeyIs]

/-- toggleSeat on a seat that reads sold after the revert step: result sold,
state unchanged beyond the revert. -/
lemma toggleSeat_sold_eq (db : Db) (showId : Nat) (seatCode userId : String)
    (holdMinutes now : Nat) (seat : Seat)
    (hfind : (PrismaDb.revertExpiredSeat db showId seatCode now).seats.find?
        (fun s => s.showId == showId && s.seatCode == seatCode) = some seat)
    (hs : seat.status = SeatStatus.sold) :
    PrismaDb.toggleSeat db showId seatCode userId holdMinutes now =
      Except.ok (ToggleResult.sold, PrismaDb.revertExpiredSeat db showId seatCode now) := by
  simp only [PrismaDb.toggleSeat, hfind, hs]
  simp

/-- toggleSeat on a seat held by a different (nonempty) holder after the
revert step: result held-by-other, state unchanged beyond the revert. -/
lemma toggleSeat_heldOther_eq (db : Db) (showId : Nat) (seatCode userId : String)
    (holdMinutes now : Nat) (seat : Seat) (h : String)
    (hfind : (PrismaDb.revertExpiredSeat db showId seatCode now).seats.find?
        (fun s => s.showId == showId && s.seatCode == seatCode) = some seat)
    (hs : seat.status = SeatStatus.held) (hh : seat.heldBy = some h)
    (hne1 : h ≠ "") (hne2 : h ≠ userId) :
    PrismaDb.toggleSeat db showId seatCode userId holdMinutes now =
      Except.ok (ToggleResult.heldByOther, PrismaDb.revertExpiredSeat db showId seatCode now) := by
  simp only [PrismaDb.toggleSeat, hfind, hs, hh]
  simp [hne1, hne2]

/-- toggleSeat on a seat held by the requesting user after the revert step:
the hold is released. -/
lemma toggleSeat_release_eq (db : Db) (showId : Nat) (seatCode userId : String)
    (holdMinutes now : Nat) (seat : Seat)
    (hfind : (PrismaDb.revertExpiredSeat db showId seatCode now).seats.find?
        (fun s => s.showId == showId && s.seatCode == seatCode) = some seat)
    (hs : seat.status = SeatStatus.held) (hh : seat.heldBy = some userId) :
    PrismaDb.toggleSeat db showId seatCode userId holdMinutes now =
      Except.ok (ToggleResult.available,
        { PrismaDb.revertExpiredSeat db showId seatCode now with
          seats := (PrismaDb.revertExpiredSeat db showId seatCode now).seats.map fun s =>
            if s.showId == showId && s.seatCode == seatCode then
              { s with status := SeatStatus.available, heldBy := none, holdUntil := none }
            else s }) := by
  simp only [PrismaDb.toggleSeat, hfind, hs, hh]
  simp

/-- toggleSeat on a seat that reads available after the revert step: the hold
is acquired for the requesting user. -/
lemma toggleSeat_acquire_eq (db : Db) (showId : Nat) (seatCode userId : String)
    (holdMinutes now : Nat) (seat : Seat)
    (hfind : (PrismaDb.revertExpiredSeat db showId seatCode now).seats.find?
        (fun s => s.showId == showId && s.seatCode == seatCode) = some seat)
    (hs : seat.status = SeatStatus.available) :
    PrismaDb.toggleSeat db showId seatCode userId holdMinutes now =
      Except.ok (ToggleResult.held,
        { PrismaDb.revertExpiredSeat db showId seatCode now with
          seats := (PrismaDb.revertExpiredSeat db showId seatCode now).seats.map fun s =>
            if s.showId == showId && s.seatCode == seatCode then
              { s with status := SeatStatus.held, heldBy := some userId,
                       holdUntil := some (now + holdMinutes * 60 * 1000) }
            else s }) := by
  simp only [PrismaDb.toggleSeat, hfind, hs]
  simp

/-- The code-side filter of releaseExpiredHolds coincides with the spec-side
expiry-reclamation condition. -/
lemma expiredHeld_cond_iff (showId now : Nat) (s : Seat) :
    (s.showId == showId && s.status == SeatStatus.held
        && PrismaDb.holdUntilLt s.holdUntil now) = true ↔ seatExpiredHeld showId now s := by
  cases hu : s.holdUntil <;>
    simp [seatExpiredHeld, PrismaDb.holdUntilLt, hu, and_assoc]

/-- The code-side filter of freezeHeldSeats coincides with the spec-side
held-by-user condition. -/
lemma heldByUser_cond_iff (showId : Nat) (userId : String) (s : Seat) :
    (s.showId == showId && s.heldBy == some userId && s.status == SeatStatus.held) = true ↔
      seatHeldByUser showId userId s := by
  simp only [Bool.and_eq_true, beq_iff_eq]
  unfold seatHeldByUser
  tauto

/-- C1: the claimed seat-state invariant — status is one of available, held,
sold with exactly one matching holder/buyer combination — fails on a reachable
state: seeding a 1-by-1 show, holding A1 as u1, freezing, ordering, approving
that order, then rejecting a second pending order that lists A1 leaves A1
available with buyer_id still set to u1, because rejectOrder does not clear
buyer_id. -/
theorem c1_invariant_violated :
    c1Final.seats = [{ showId := 1, seatCode := "A1", status := SeatStatus.available,
                       heldBy := none, holdUntil := none, buyerId := some "u1" }] ∧
    ¬ (∀ s ∈ c1Final.seats, SeatConsistent s) := by
  decide

/-- C3: rejecting a pending order does mark its seats available and clears
holder and expiry, but does not clear the buyer: from a state where seat A1
carries buyer u1 and order 1 (user u2, seats A1) is pending, rejectOrder
returns the rejected record yet leaves buyer_id = u1 on the now-available
seat, contradicting the claim that reject clears the buyer. -/
theorem c3_reject_keeps_buyer :
    (PrismaDb.rejectOrder c3Db 1 "admin" 0).2.seats =
      [{ showId := 1, seatCode := "A1", status := SeatStatus.available,
         heldBy := none, holdUntil := none, buyerId := some "u1" }] ∧
    (PrismaDb.rejectOrder c3Db 1 "admin" 0).1 =
      some { id := 1, user_id := "u2", show_id := 1, seats := ["A1"],
             amount := 100, status := "rejected" } ∧
    ¬ (∀ s ∈ (PrismaDb.rejectOrder c3Db 1 "admin" 0).2.seats, s.buyerId = none) := by
  decide

/-- C5: releaseExpiredHolds resets to available — clearing holder and expiry —
exactly those seats of the show that are held with a non-null expiry strictly
earlier than now, and leaves every other seat (in particular a frozen held
seat with null expiry) and every other row family unchanged. -/
theorem releaseExpiredHolds_exact (db : Db) (showId now : Nat) :
    PrismaDb.releaseExpiredHolds db showId now =
      { db with
        seats := db.seats.map fun s =>
          if seatExpiredHeld showId now s then
            { s with status := SeatStatus.available, heldBy := none, holdUntil := none }
          else s } := by
  unfold PrismaDb.releaseExpiredHolds
  congr 1
  refine List.map_congr_left fun s _ => ?_
  by_cases h : seatExpiredHeld showId now s
  · rw [if_pos ((expiredHeld_cond_iff showId now s).mpr h), if_pos h]
  · rw [if_neg (fun hb => h ((expiredHeld_cond_iff showId now s).mp hb)), if_neg h]

/-- C6: freezeHeldSeats sets the expiry to null on exactly the seats of the
show that are held by the given user, keeping their status, holder and buyer,
and leaves every other seat and every other row family unchanged. -/
theorem freezeHeldSeats_exact (db : Db) (showId : Nat) (userId : String) :
    PrismaDb.freezeHeldSeats db showId userId =
      { db with
        seats := db.seats.map fun s =>
          if seatHeldByUser showId userId s then { s with holdUntil := none } else s } := by
  unfold PrismaDb.freezeHeldSeats
  congr 1
  refine List.map_congr_left fun s _ => ?_
  by_cases h : seatHeldByUser showId userId s
  · rw [if_pos ((heldByUser_cond_iff showId userId s).mpr h), if_pos h]
  · rw [if_neg (fun hb => h ((heldByUser_cond_iff showId userId s).mp hb)), if_neg h]

/-- The Prisma lt filter on the nullable holdUntil column and the SQL
IS NOT NULL + comparison test agree on every value. -/
lemma holdLt_eq_holdExpired (o : Option Nat) (now : Nat) :
    PrismaDb.holdUntilLt o now = SqlDb.holdExpired o now := by
  cases o <;> simp [PrismaDb.holdUntilLt, SqlDb.holdExpired]

/-- C10: the Prisma implementation (src/lib/db.ts) and the SQL implementation
of the same API are behaviorally equivalent — started from the same state with
the same arguments, toggleSeat, releaseExpiredHolds, freezeHeldSeats,
approveOrder, and rejectOrder return the same result and produce the same
post-state. -/
theorem prisma_sql_equivalent :
    (∀ (db : Db) (showId : Nat) (seatCode userId : String) (holdMinutes now : Nat),
      PrismaDb.toggleSeat db showId seatCode userId holdMinutes now =
        SqlDb.toggleSeat db showId seatCode userId holdMinutes now) ∧
    (∀ (db : Db) (showId now : Nat),
      PrismaDb.releaseExpiredHolds db showId now = SqlDb.releaseExpiredHolds db showId now) ∧
    (∀ (db : Db) (showId : Nat) (userId : String),
      PrismaDb.freezeHeldSeats db showId userId = SqlDb.freezeHeldSeats db showId userId) ∧
    (∀ (db : Db) (orderId : Nat) (adminId : String) (now : Nat),
      PrismaDb.approveOrder db orderId adminId now = SqlDb.approveOrder db orderId adminId now) ∧
    (∀ (db : Db) (orderId : Nat) (adminId : String) (now : Nat),
      PrismaDb.rejectOrder db orderId adminId now = SqlDb.rejectOrder db orderId adminId now) := by
  refine ⟨fun db showId seatCode userId holdMinutes now => ?_,
          fun db showId now => ?_, fun db showId userId => rfl,
          fun db orderId adminId now => rfl, fun db orderId adminId now => rfl⟩
  · unfold PrismaDb.toggleSeat SqlDb.toggleSeat
    unfold PrismaDb.revertExpiredSeat SqlDb.revertExpiredSeat
    simp only [holdLt_eq_holdExpired, Nat.mul_assoc]
  · unfold PrismaDb.releaseExpiredHolds SqlDb.releaseExpiredHolds
    simp only [holdLt_eq_holdExpired]

/-- C2: for an existing seat, toggle — after first reverting that seat's
expired hold inside the same atomic unit — returns exactly one of four
outcomes determined by the seat's state: sold with no mutation if the seat is
sold; held-by-other with no mutation if it is held by a different user;
available, releasing the seat (status available, holder and expiry cleared),
if it is held by the requesting user; and held (status held, holder = userId,
expiry = now + holdMinutes in milliseconds) if it is available. -/
theorem toggleSeat_four_outcomes (db : Db) (showId : Nat) (seatCode userId : String)
    (holdMinutes now : Nat) (seat : Seat)
    (hfind : (PrismaDb.revertExpiredSeat db showId seatCode now).seats.find?
        (fun s => s.showId == showId && s.seatCode == seatCode) = some seat) :
    (seat.status = SeatStatus.sold →
      PrismaDb.toggleSeat db showId seatCode userId holdMinutes now =
        Except.ok (ToggleResult.sold, PrismaDb.revertExpiredSeat db showId seatCode now)) ∧
    (∀ h, seat.status = SeatStatus.held → seat.heldBy = some h → h ≠ "" → h ≠ userId →
      PrismaDb.toggleSeat db showId seatCode userId holdMinutes now =
        Except.ok (ToggleResult.heldByOther, PrismaDb.revertExpiredSeat db showId seatCode now)) ∧
    (seat.status = SeatStatus.held → seat.heldBy = some userId →
      PrismaDb.toggleSeat db showId seatCode userId holdMinutes now =
        Except.ok (ToggleResult.available,
          { PrismaDb.revertExpiredSeat db showId seatCode now with
            seats := (PrismaDb.revertExpiredSeat db showId seatCode now).seats.map fun s =>
              if seatKeyIs showId seatCode s then
                { s with status := SeatStatus.available, heldBy := none, holdUntil := none }
              else s })) ∧
    (seat.status = SeatStatus.available →
      PrismaDb.toggleSeat db showId seatCode userId holdMinutes now =
        Except.ok (ToggleResult.held,
          { PrismaDb.revertExpiredSeat db showId seatCode now with
            seats := (PrismaDb.revertExpiredSeat db showId seatCode now).seats.map fun s =>
              if seatKeyIs showId seatCode s then
                { s with status := SeatStatus.held, heldBy := some userId,
                         holdUntil := some (now + holdMinutes * 60 * 1000) }
              else s })) := by
  refine ⟨fun hs => toggleSeat_sold_eq db showId seatCode userId holdMinutes now seat hfind hs,
          fun h hs hh hne1 hne2 =>
            toggleSeat_heldOther_eq db showId seatCode userId holdMinutes now seat h hfind hs hh
              hne1 hne2,
          fun hs hh => ?_, fun hs => ?_⟩
  · rw [toggleSeat_release_eq db showId seatCode userId holdMinutes now seat hfind hs hh]
    rw [map_if_congr _ _ (seatKeyIs showId seatCode) (seatKey_cond_iff showId seatCode)]
  · rw [toggleSeat_acquire_eq db showId seatCode userId holdMinutes now seat hfind hs]
    rw [map_if_congr _ _ (seatKeyIs showId seatCode) (seatKey_cond_iff showId seatCode)]

/-- Witness for C2: in the seeded demo state, seat A1 reads available after
the revert step, and toggling it acquires the hold for u1 until 600000 ms. -/
theorem toggleSeat_four_outcomes_witness :
    (PrismaDb.revertExpiredSeat c1Seeded 1 "A1" 0).seats.find?
        (fun s => s.showId == 1 && s.seatCode == "A1") = some w2Seat ∧
    PrismaDb.toggleSeat c1Seeded 1 "A1" "u1" 10 0 = Except.ok (ToggleResult.held, w2Post) := by
  refine ⟨by decide, ?_⟩
  have h := toggleSeat_four_outcomes c1Seeded 1 "A1" "u1" 10 0 w2Seat (by decide)
  rw [h.2.2.2 rfl]
  refine congrArg Except.ok ?_
  decide

/-- C4: approveOrder and rejectOrder mutate nothing unless the order exists
with status pending — an absent order is reported as null with the state
unchanged, and an order whose status is not pending is returned unchanged
with its stored terminal status, the state (seats, orders, sessions)
untouched. -/
theorem settle_requires_pending (db : Db) (orderId : Nat) (adminId : String) (now : Nat) :
    (db.orders.find? (fun o => o.id == orderId) = none →
        PrismaDb.approveOrder db orderId adminId now = (none, db) ∧
        PrismaDb.rejectOrder db orderId adminId now = (none, db)) ∧
    (∀ order, db.orders.find? (fun o => o.id == orderId) = some order →
        order.status ≠ "pending" →
        PrismaDb.approveOrder db orderId adminId now = (some order.toRecord, db) ∧
        PrismaDb.rejectOrder db orderId adminId now = (some order.toRecord, db)) := by
  constructor
  · intro hnone
    constructor
    · simp only [PrismaDb.approveOrder, hnone]
    · simp only [PrismaDb.rejectOrder, hnone]
  · intro order hsome hnp
    constructor
    · simp only [PrismaDb.approveOrder, hsome]
      rw [if_pos hnp]
    · simp only [PrismaDb.rejectOrder, hsome]
      rw [if_pos hnp]

/-- Witness for C4: the already-approved order 1 of c4Db is found, is not
pending, and both settlement calls return it unchanged without mutating the
state. -/
theorem settle_requires_pending_witness :
    c4Db.orders.find? (fun o => o.id == 1) = some c4Order ∧
    c4Order.status ≠ "pending" ∧
    PrismaDb.approveOrder c4Db 1 "admin2" 7 = (some c4Order.toRecord, c4Db) ∧
    PrismaDb.rejectOrder c4Db 1 "admin2" 7 = (some c4Order.toRecord, c4Db) := by
  have h := (settle_requires_pending c4Db 1 "admin2" 7).2 c4Order (by decide) (by decide)
  exact ⟨by decide, by decide, h.1, h.2⟩

/-- togglePost unwraps the post-state of a successful toggleSeat call. -/
lemma togglePost_eq_of_ok (db db' : Db) (showId : Nat) (seatCode userId : String)
    (holdMinutes now : Nat) (r : ToggleResult)
    (h : PrismaDb.toggleSeat db showId seatCode userId holdMinutes now = Except.ok (r, db')) :
    togglePost db showId seatCode userId holdMinutes now = db' := by
  unfold togglePost
  rw [h]

/-- toggleRes unwraps the result value of a successful toggleSeat call. -/
lemma toggleRes_eq_of_ok (db db' : Db) (showId : Nat) (seatCode userId : String)
    (holdMinutes now : Nat) (r : ToggleResult)
    (h : PrismaDb.toggleSeat db showId seatCode userId holdMinutes now = Except.ok (r, db')) :
    toggleRes db showId seatCode userId holdMinutes now = some r := by
  unfold toggleRes
  rw [h]

/-- The revert step of toggleSeat leaves the looked-up seat unchanged when it
is not held or its hold has not lapsed. -/
lemma find?_revertExpiredSeat (db : Db) (showId : Nat) (seatCode : String) (now : Nat)
    (seat : Seat)
    (h : db.seats.find? (fun s => s.showId == showId && s.seatCode == seatCode) = some seat)
    (hno : seat.status ≠ SeatStatus.held ∨ PrismaDb.holdUntilLt seat.holdUntil now = false) :
    (PrismaDb.revertExpiredSeat db showId seatCode now).seats.find?
      (fun s => s.showId == showId && s.seatCode == seatCode) = some seat := by
  unfold PrismaDb.revertExpiredSeat
  dsimp only
  rw [find?_map_stable _ _ (fun s => by
      by_cases hc : (s.showId == showId && s.seatCode == seatCode &&
          s.status == SeatStatus.held && PrismaDb.holdUntilLt s.holdUntil now) = true
      · rw [if_pos hc]
      · rw [if_neg hc]) db.seats seat h]
  have hcond : (seat.showId == showId && seat.seatCode == seatCode &&
      seat.status == SeatStatus.held && PrismaDb.holdUntilLt seat.holdUntil now) = false := by
    rcases hno with hs | hl
    · simp [hs]
    · simp [hl]
  rw [if_neg (by simp [hcond])]

/-- Looking up the seat after a key-scoped conditional update returns the
updated row. -/
lemma find?_update_map (l : List Seat) (showId : Nat) (seatCode : String) (g : Seat → Seat)
    (hg1 : ∀ s, (g s).showId = s.showId) (hg2 : ∀ s, (g s).seatCode = s.seatCode)
    (seat : Seat)
    (h : l.find? (fun s => s.showId == showId && s.seatCode == seatCode) = some seat) :
    (l.map fun s => if s.showId == showId && s.seatCode == seatCode then g s else s).find?
        (fun s => s.showId == showId && s.seatCode == seatCode) = some (g seat) := by
  have := find?_map_stable (fun s => s.showId == showId && s.seatCode == seatCode)
      (fun s => if s.showId == showId && s.seatCode == seatCode then g s else s)
      (fun s => by
        dsimp only
        by_cases hc : (s.showId == showId && s.seatCode == seatCode) = true
        · rw [if_pos hc, hg1, hg2]
        · rw [if_neg hc]) l seat h
  dsimp only at this
  rw [this, if_pos (List.find?_some h)]

/-- Clearing the hold fields of a seat that already has them clear is the
identity. -/
lemma seat_clear_eq_self (seat : Seat) (hav : seat.status = SeatStatus.available)
    (hhb : seat.heldBy = none) (hhu : seat.holdUntil = none) :
    { seat with status := SeatStatus.available, heldBy := none, holdUntil := none } = seat := by
  cases seat
  simp_all

/-- C7: toggling an available seat (no holder, no expiry) twice in a row by
the same user returns held then available, and — provided the second call
comes no later than the hold expiry — the seat is back in its original state
after the second call. -/
theorem toggle_roundtrip (db : Db) (showId : Nat) (seatCode userId : String)
    (holdMinutes t1 t2 : Nat) (seat : Seat)
    (hfind : findSeat db showId seatCode = some seat)
    (hav : seat.status = SeatStatus.available)
    (hhb : seat.heldBy = none) (hhu : seat.holdUntil = none)
    (ht : t2 ≤ t1 + holdMinutes * 60 * 1000) :
    toggleRes db showId seatCode userId holdMinutes t1 = some ToggleResult.held ∧
    toggleRes (togglePost db showId seatCode userId holdMinutes t1) showId seatCode userId
      holdMinutes t2 = some ToggleResult.available ∧
    findSeat (togglePost (togglePost db showId seatCode userId holdMinutes t1) showId seatCode
      userId holdMinutes t2) showId seatCode = some seat := by
  unfold findSeat at hfind
  have hfind1 := find?_revertExpiredSeat db showId seatCode t1 seat hfind
    (Or.inl (by simp [hav]))
  have h1 := toggleSeat_acquire_eq db showId seatCode userId holdMinutes t1 seat hfind1 hav
  have hpost1 := togglePost_eq_of_ok _ _ _ _ _ _ _ _ h1
  have hfind2 : (togglePost db showId seatCode userId holdMinutes t1).seats.find?
      (fun s => s.showId == showId && s.seatCode == seatCode) =
      some { seat with status := SeatStatus.held, heldBy := some userId,
                       holdUntil := some (t1 + holdMinutes * 60 * 1000) } := by
    rw [hpost1]
    exact find?_update_map _ showId seatCode
      (fun s => { s with status := SeatStatus.held, heldBy := some userId,
                         holdUntil := some (t1 + holdMinutes * 60 * 1000) })
      (fun s => rfl) (fun s => rfl) seat hfind1
  have hfind3 := find?_revertExpiredSeat (togglePost db showId seatCode userId holdMinutes t1)
      showId seatCode t2
      { seat with status := SeatStatus.held, heldBy := some userId,
                  holdUntil := some (t1 + holdMinutes * 60 * 1000) }
      hfind2
      (Or.inr (by simp only [PrismaDb.holdUntilLt]; simp; omega))
  have h2 := toggleSeat_release_eq (togglePost db showId seatCode userId holdMinutes t1)
      showId seatCode userId holdMinutes t2 _ hfind3 rfl rfl
  refine ⟨toggleRes_eq_of_ok _ _ _ _ _ _ _ _ h1, toggleRes_eq_of_ok _ _ _ _ _ _ _ _ h2, ?_⟩
  rw [togglePost_eq_of_ok _ _ _ _ _ _ _ _ h2]
  unfold findSeat
  dsimp only
  rw [find?_update_map _ showId seatCode
    (fun s => { s with status := SeatStatus.available, heldBy := none, holdUntil := none })
    (fun s => rfl) (fun s => rfl) _ hfind3]
  exact congrArg some (seat_clear_eq_self seat hav hhb hhu)

/-- Witness for C7: in the seeded demo state, toggling A1 twice as u1 at time
0 returns held then available and restores the seat. -/
theorem toggle_roundtrip_witness :
    findSeat c1Seeded 1 "A1" = some w2Seat ∧
    w2Seat.status = SeatStatus.available ∧ w2Seat.heldBy = none ∧ w2Seat.holdUntil = none ∧
    (0 : Nat) ≤ 0 + 10 * 60 * 1000 ∧
    toggleRes c1Seeded 1 "A1" "u1" 10 0 = some ToggleResult.held ∧
    toggleRes (togglePost c1Seeded 1 "A1" "u1" 10 0) 1 "A1" "u1" 10 0 =
      some ToggleResult.available ∧
    findSeat (togglePost (togglePost c1Seeded 1 "A1" "u1" 10 0) 1 "A1" "u1" 10 0) 1 "A1" =
      some w2Seat := by
  have h := toggle_roundtrip c1Seeded 1 "A1" "u1" 10 0 0 w2Seat (by decide) rfl rfl rfl
    (by decide)
  exact ⟨by decide, rfl, rfl, rfl, by decide, h.1, h.2.1, h.2.2⟩

/-- C8: a successful updatePrice rewrites only the price field of the show
with the given id — seats, orders (hence every order's amount), sessions and
the counters are untouched, and every other show, and every other field of the
updated show, is unchanged. -/
theorem updatePrice_frame (db : Db) (showId price : Nat) (db' : Db)
    (h : PrismaDb.updatePrice db showId price = Except.ok db') :
    db'.seats = db.seats ∧ db'.orders = db.orders ∧ db'.sessions = db.sessions ∧
    db'.nextOrderId = db.nextOrderId ∧ db'.nextShowId = db.nextShowId ∧
    db'.shows = db.shows.map
      (fun sh => if sh.id = showId then { sh with price := price } else sh) := by
  unfold PrismaDb.updatePrice at h
  by_cases hc : db.shows.any (fun sh => sh.id == showId) = true
  · rw [if_pos hc] at h
    cases h
    refine ⟨rfl, rfl, rfl, rfl, rfl, ?_⟩
    exact map_if_congr db.shows _ (fun sh => sh.id = showId) (fun sh => beq_iff_eq)
  · rw [if_neg hc] at h
    cases h

/-- Witness for C8: updating show 1 of c4Db to price 999 succeeds and changes
nothing but that price field. -/
theorem updatePrice_frame_witness :
    PrismaDb.updatePrice c4Db 1 999 = Except.ok c8Post ∧
    (c8Post.seats = c4Db.seats ∧ c8Post.orders = c4Db.orders ∧
     c8Post.sessions = c4Db.sessions ∧ c8Post.nextOrderId = c4Db.nextOrderId ∧
     c8Post.nextShowId = c4Db.nextShowId ∧
     c8Post.shows = c4Db.shows.map
       (fun sh => if sh.id = 1 then { sh with price := 999 } else sh)) := by
  have h := updatePrice_frame c4Db 1 999 c8Post rfl
  exact ⟨rfl, h⟩

/-- digitVal inverts Nat.digitChar on decimal digits. -/
lemma digitVal_digitChar (n : Nat) (h : n < 10) : digitVal (Nat.digitChar n) = n := by
  interval_cases n <;> rfl

/-- decDigits inverts Nat.toDigitsCore in base 10, given enough fuel. -/
lemma decDigits_toDigitsCore :
    ∀ (fuel n : Nat) (ds : List Char), n < 10 ^ fuel →
      decDigits (Nat.toDigitsCore 10 fuel n ds) = n * 10 ^ ds.length + decDigits ds := by
  intro fuel
  induction fuel with
  | zero =>
    intro n ds h
    have hn : n = 0 := Nat.lt_one_iff.mp h
    subst hn
    simp [Nat.toDigitsCore]
  | succ fuel ih =>
    intro n ds h
    simp only [Nat.toDigitsCore]
    by_cases h0 : n / 10 = 0
    · rw [if_pos h0]
      have hn : n < 10 := (Nat.div_eq_zero_iff (by norm_num)).mp h0
      simp only [decDigits]
      rw [digitVal_digitChar _ (Nat.mod_lt _ (by norm_num)), Nat.mod_eq_of_lt hn]
    · rw [if_neg h0]
      have hdiv : n / 10 < 10 ^ fuel := by
        have hlt : n < 10 * 10 ^ fuel := by
          rw [← pow_succ']
          exact h
        exact Nat.div_lt_of_lt_mul hlt
      rw [ih (n / 10) (Nat.digitChar (n % 10) :: ds) hdiv]
      simp only [decDigits, List.length_cons]
      rw [digitVal_digitChar _ (Nat.mod_lt _ (by norm_num))]
      have hsplit : n / 10 * 10 ^ (ds.length + 1) + n % 10 * 10 ^ ds.length =
          n * 10 ^ ds.length := by
        rw [pow_succ]
        calc n / 10 * (10 ^ ds.length * 10) + n % 10 * 10 ^ ds.length
            = (n / 10 * 10 + n % 10) * 10 ^ ds.length := by ring
          _ = n * 10 ^ ds.length := by
              have hmod : n / 10 * 10 + n % 10 = n := by omega
              rw [hmod]
      omega

/-- decDigits inverts Nat.repr. -/
lemma decDigits_repr (n : Nat) : decDigits (Nat.repr n).data = n := by
  have hb : n < 10 ^ (n + 1) :=
    lt_of_lt_of_le (Nat.lt_pow_self (by norm_num) n)
      (Nat.pow_le_pow_right (by norm_num) (Nat.le_succ n))
  have := decDigits_toDigitsCore (n + 1) n [] hb
  simpa [Nat.repr, Nat.toDigits, List.asString, decDigits] using this

/-- The decimal representation of a natural number determines it. -/
lemma repr_injective (m n : Nat) (h : Nat.repr m = Nat.repr n) : m = n := by
  have := congrArg (fun s : String => decDigits s.data) h
  simpa [decDigits_repr] using this

/-- Strings with equal character data are equal. -/
lemma string_data_inj (s t : String) (h : s.data = t.data) : s = t := by
  cases s
  cases t
  exact congrArg String.mk h

/-- The character data of a generated seat code: the row letter followed by
the decimal digits of the column number. -/
lemma seatCodeFor_data (L : Char) (c : Nat) :
    (PrismaDb.seatCodeFor L c).data = L :: (Nat.repr c).data := by
  unfold PrismaDb.seatCodeFor
  rw [String.data_append]
  rfl

/-- Seat codes determine their row letter and column number. -/
lemma seatCodeFor_inj (L1 L2 : Char) (c1 c2 : Nat)
    (h : PrismaDb.seatCodeFor L1 c1 = PrismaDb.seatCodeFor L2 c2) : L1 = L2 ∧ c1 = c2 := by
  have hd := congrArg String.data h
  rw [seatCodeFor_data, seatCodeFor_data] at hd
  injection hd with hL hrest
  exact ⟨hL, repr_injective c1 c2 (string_data_inj _ _ hrest)⟩

/-- A flatMap over distinct keys with nodup, pairwise-disjoint blocks has no
duplicates. -/
lemma nodup_flatMap_disjoint {α β : Type} [DecidableEq β] (l : List α) (f : α → List β)
    (hl : l.Nodup) (hf : ∀ a ∈ l, (f a).Nodup)
    (hdisj : ∀ a ∈ l, ∀ b ∈ l, a ≠ b → ∀ x ∈ f a, x ∉ f b) :
    (l.flatMap f).Nodup := by
  induction l with
  | nil => simp
  | cons a t ih =>
    rw [List.flatMap_cons, List.nodup_append]
    obtain ⟨hat, ht⟩ := List.nodup_cons.mp hl
    refine ⟨hf a (by simp), ih ht (fun b hb => hf b (by simp [hb]))
      (fun b hb b' hb' hne x hx => hdisj b (by simp [hb]) b' (by simp [hb']) hne x hx), ?_⟩
    intro x hxa hxt
    obtain ⟨b, hb, hxb⟩ := List.mem_flatMap.mp hxt
    have hne : a ≠ b := fun he => hat (he ▸ hb)
    exact hdisj a (by simp) b (by simp [hb]) hne x hxa hxb

/-- The 26 alphabet letters are pairwise distinct. -/
lemma alphabet_nodup : PrismaDb.alphabet.Nodup := by decide

/-- The generated seat-code batch has no duplicate codes. -/
lemma seedCodes_nodup (rows cols : Nat) : (PrismaDb.seedCodes rows cols).Nodup := by
  unfold PrismaDb.seedCodes
  refine nodup_flatMap_disjoint _ _
    (alphabet_nodup.sublist (List.take_sublist rows PrismaDb.alphabet)) ?_ ?_
  · intro L hL
    refine List.Nodup.map ?_ (List.nodup_range cols)
    intro k1 k2 hk
    have := (seatCodeFor_inj L L (k1 + 1) (k2 + 1) hk).2
    omega
  · intro L1 h1 L2 h2 hne x hx1 hx2
    obtain ⟨k1, _, rfl⟩ := List.mem_map.mp hx1
    obtain ⟨k2, _, hk⟩ := List.mem_map.mp hx2
    exact hne ((seatCodeFor_inj L2 L1 (k2 + 1) (k1 + 1) hk).1.symm)

/-- Bulk-inserting pairwise-distinct codes that are all fresh for the show
appends one default seat row per code. -/
lemma foldl_insert_fresh (showId : Nat) :
    ∀ (codes : List String) (seats : List Seat), codes.Nodup →
      (∀ c ∈ codes, ∀ s ∈ seats, ¬ (s.showId = showId ∧ s.seatCode = c)) →
      codes.foldl (fun acc c => PrismaDb.insertSeatIfNew acc showId c) seats =
        seats ++ codes.map (PrismaDb.mkSeat showId) := by
  intro codes
  induction codes with
  | nil =>
    intro seats _ _
    simp
  | cons c cs ih =>
    intro seats hnd hfresh
    rw [List.foldl_cons]
    have hins : PrismaDb.insertSeatIfNew seats showId c =
        seats ++ [PrismaDb.mkSeat showId c] := by
      unfold PrismaDb.insertSeatIfNew
      rw [if_neg]
      intro hany
      obtain ⟨s, hs, hb⟩ := List.any_eq_true.mp hany
      simp only [Bool.and_eq_true, beq_iff_eq] at hb
      exact hfresh c (by simp) s hs hb
    rw [hins, ih (seats ++ [PrismaDb.mkSeat showId c]) (List.nodup_cons.mp hnd).2 ?_]
    · simp
    · intro c' hc' s hs hcond
      rcases List.mem_append.mp hs with hs1 | hs2
      · exact hfresh c' (by simp [hc']) s hs1 hcond
      · have hseq : s = PrismaDb.mkSeat showId c := by simpa using hs2
        subst hseq
        have hcc : c = c' := hcond.2
        exact (List.nodup_cons.mp hnd).1 (hcc ▸ hc')

/-- The length of a flatMap whose blocks all have the same length. -/
lemma length_flatMap_const {α β : Type} (l : List α) (f : α → List β) (c : Nat)
    (h : ∀ a ∈ l, (f a).length = c) : (l.flatMap f).length = l.length * c := by
  induction l with
  | nil => simp
  | cons a t ih =>
    rw [List.flatMap_cons, List.length_append, h a (by simp),
      ih (fun b hb => h b (by simp [hb])), List.length_cons]
    ring

/-- The batch holds min(rows, 26) times cols codes. -/
lemma seedCodes_length (rows cols : Nat) :
    (PrismaDb.seedCodes rows cols).length = min rows 26 * cols := by
  unfold PrismaDb.seedCodes
  rw [length_flatMap_const _ _ cols (fun L _ => by simp), List.length_take,
    show PrismaDb.alphabet.length = 26 from rfl]

/-- C9 (amended): when the new show's id is fresh, createShow creates exactly
one show row and bulk-seeds exactly min(rows, 26) times cols seat rows — the
alphabet slice caps the lettered rows at 26 — each seeded seat being the code
RowLetter followed by ColumnNumber for columns 1..cols, starting available
with no holder, expiry, or buyer. -/
theorem createShow_seeds (db : Db) (title : String) (startsAt rows cols price : Nat)
    (hfresh : ∀ s ∈ db.seats, s.showId ≠ db.nextShowId) :
    (PrismaDb.createShow db title startsAt rows cols price).shows =
      db.shows ++ [{ id := db.nextShowId, title := title, startsAt := startsAt,
                     rows := rows, cols := cols, price := price }] ∧
    (PrismaDb.createShow db title startsAt rows cols price).seats =
      db.seats ++ (PrismaDb.seedCodes rows cols).map (PrismaDb.mkSeat db.nextShowId) ∧
    (PrismaDb.createShow db title startsAt rows cols price).seats.length =
      db.seats.length + min rows 26 * cols ∧
    (∀ s ∈ (PrismaDb.seedCodes rows cols).map (PrismaDb.mkSeat db.nextShowId),
      s.showId = db.nextShowId ∧ s.status = SeatStatus.available ∧
      s.heldBy = none ∧ s.holdUntil = none ∧ s.buyerId = none) := by
  have hseats : (PrismaDb.seedCodes rows cols).foldl
      (fun acc c => PrismaDb.insertSeatIfNew acc db.nextShowId c) db.seats =
      db.seats ++ (PrismaDb.seedCodes rows cols).map (PrismaDb.mkSeat db.nextShowId) :=
    foldl_insert_fresh db.nextShowId (PrismaDb.seedCodes rows cols) db.seats
      (seedCodes_nodup rows cols)
      (fun c hc s hs hcond => hfresh s hs hcond.1)
  unfold PrismaDb.createShow PrismaDb.seedSeats
  dsimp only
  refine ⟨rfl, hseats, ?_, ?_⟩
  · rw [hseats, List.length_append, List.length_map, seedCodes_length]
  · intro s hs
    obtain ⟨c, hc, rfl⟩ := List.mem_map.mp hs
    exact ⟨rfl, rfl, rfl, rfl, rfl⟩

/-- Witness for the amended C9: seeding a fresh 2-by-3 show in the empty
state yields 6 = min(2, 26) times 3 seats. -/
theorem createShow_seeds_witness :
    (∀ s ∈ db0.seats, s.showId ≠ db0.nextShowId) ∧
    (PrismaDb.createShow db0 "w" 0 2 3 50).seats.length =
      db0.seats.length + min 2 26 * 3 := by
  refine ⟨by simp [db0], ?_⟩
  exact (createShow_seeds db0 "w" 0 2 3 50 (by simp [db0])).2.2.1

/-- Counterexample to C9 as stated: validation accepts rows = 27 (any value
at least 1), but creating a 27-by-1 show seeds only 26 seats, not 27 times 1,
because the alphabet slice caps the lettered rows at 26. -/
theorem seedSeats_rows_capped :
    (PrismaDb.createShow db0 "big" 0 27 1 100).seats.length = 26 ∧ 26 ≠ 27 * 1 := by
  constructor
  · decide
  · decide
